import Mathlib

/-! Verification of the SharedMemDict shared-memory record store
    (shared_mem_dict.py, version 1.5.0) against its natural-language
    specification.  The Python code is shallowly embedded: byte buffers are
    lists of naturals (each < 256), machine words are naturals reduced
    mod 2^32 where overflow matters, and Python exceptions are explicit
    error values.  The embedding targets CPython on 64-bit Linux (LP64
    struct sizes, POSIX shared memory, little-endian scalars). -/

set_option maxRecDepth 4000

/-- Bytes of a natural number, little endian, fixed width `w`. -/
def toBytesLE : Nat → Nat → List Nat
  | 0, _ => []
  | w + 1, n => n % 256 :: toBytesLE w (n / 256)

/-- Value of a little-endian byte list. -/
def fromBytesLE : List Nat → Nat
  | [] => 0
  | b :: bs => b + 256 * fromBytesLE bs

/-- Bytes of a natural number, big endian, fixed width `w`. -/
def toBytesBE : Nat → Nat → List Nat
  | 0, _ => []
  | w + 1, n => toBytesBE w (n / 256) ++ [n % 256]

/-- Value of a big-endian byte list. -/
def fromBytesBE (bs : List Nat) : Nat :=
  bs.foldl (fun acc b => acc * 256 + b) 0

/-- The UTF-8 bytes of an ASCII string (all strings handled here are ASCII,
    for which the UTF-8 encoding is the code-point sequence itself). -/
def strBytes (s : String) : List Nat :=
  s.data.map Char.toNat

/- ### SHA-256 (FIPS 180-4), executable, over byte lists -/

/-- 2^32, the word modulus of SHA-256. -/
def w32 : Nat := 4294967296

/-- Right rotation of a 32-bit word. -/
def rotr (r x : Nat) : Nat :=
  ((x >>> r) ||| (x <<< (32 - r))) % w32

/-- SHA-256 Ch function (complement taken inside 32 bits). -/
def shaCh (x y z : Nat) : Nat :=
  (x &&& y) ^^^ ((x ^^^ (w32 - 1)) &&& z)

/-- SHA-256 Maj function. -/
def shaMaj (x y z : Nat) : Nat :=
  (x &&& y) ^^^ (x &&& z) ^^^ (y &&& z)

/-- SHA-256 big Sigma0. -/
def bigSigma0 (x : Nat) : Nat := rotr 2 x ^^^ rotr 13 x ^^^ rotr 22 x

/-- SHA-256 big Sigma1. -/
def bigSigma1 (x : Nat) : Nat := rotr 6 x ^^^ rotr 11 x ^^^ rotr 25 x

/-- SHA-256 small sigma0. -/
def smallSigma0 (x : Nat) : Nat := rotr 7 x ^^^ rotr 18 x ^^^ (x >>> 3)

/-- SHA-256 small sigma1. -/
def smallSigma1 (x : Nat) : Nat := rotr 17 x ^^^ rotr 19 x ^^^ (x >>> 10)

/-- The 64 SHA-256 round constants. -/
def shaK : List Nat :=
  [1116352408, 1899447441, 3049323471, 3921009573,
   961987163, 1508970993, 2453635748, 2870763221,
   3624381080, 310598401, 607225278, 1426881987,
   1925078388, 2162078206, 2614888103, 3248222580,
   3835390401, 4022224774, 264347078, 604807628,
   770255983, 1249150122, 1555081692, 1996064986,
   2554220882, 2821834349, 2952996808, 3210313671,
   3336571891, 3584528711, 113926993, 338241895,
   666307205, 773529912, 1294757372, 1396182291,
   1695183700, 1986661051, 2177026350, 2456956037,
   2730485921, 2820302411, 3259730800, 3345764771,
   3516065817, 3600352804, 4094571909, 275423344,
   430227734, 506948616, 659060556, 883997877,
   958139571, 1322822218, 1537002063, 1747873779,
   1955562222, 2024104815, 2227730452, 2361852424,
   2428436474, 2756734187, 3204031479, 3329325298]

/-- The SHA-256 working state: eight 32-bit words. -/
def ShaState : Type := Nat × Nat × Nat × Nat × Nat × Nat × Nat × Nat

/-- The SHA-256 initial hash value. -/
def shaH0 : ShaState :=
  (1779033703, 3144134277, 1013904242, 2773480762,
   1359893119, 2600822924, 528734635, 1541459225)

/-- Merkle-Damgard padding: append 0x80, zero bytes, and the 64-bit
    big-endian bit length, reaching a multiple of 64 bytes. -/
def shaPad (msg : List Nat) : List Nat :=
  let L := msg.length
  let padlen := (64 - (L + 9) % 64) % 64
  msg ++ 128 :: (List.replicate padlen 0 ++ toBytesBE 8 (8 * L))

/-- Split a byte list into 64-byte chunks (structural recursion on a fuel
    bound so that the kernel can evaluate it). -/
def shaChunksAux : Nat → List Nat → List (List Nat)
  | 0, _ => []
  | _ + 1, [] => []
  | fuel + 1, b :: bs => (b :: bs).take 64 :: shaChunksAux fuel ((b :: bs).drop 64)

/-- Split a byte list into 64-byte chunks. -/
def shaChunks (l : List Nat) : List (List Nat) :=
  shaChunksAux l.length l

/-- The 64-word message schedule of one 64-byte block. -/
def shaSchedule (block : List Nat) : List Nat :=
  let w16 := (List.range 16).map (fun i => fromBytesBE ((block.drop (4 * i)).take 4))
  (List.range 48).foldl
    (fun w _ =>
      let t := w.length
      w ++ [(smallSigma1 (w.getD (t - 2) 0) + w.getD (t - 7) 0 +
             smallSigma0 (w.getD (t - 15) 0) + w.getD (t - 16) 0) % w32])
    w16

/-- One SHA-256 compression step over a 64-byte block. -/
def shaCompress (hs : ShaState) (block : List Nat) : ShaState :=
  let w := shaSchedule block
  let final := (List.range 64).foldl
    (fun (st : ShaState) t =>
      match st with
      | (a, b, c, d, e, f, g, h) =>
        let t1 := (h + bigSigma1 e + shaCh e f g + shaK.getD t 0 + w.getD t 0) % w32
        let t2 := (bigSigma0 a + shaMaj a b c) % w32
        ((t1 + t2) % w32, a, b, c, (d + t1) % w32, e, f, g))
    hs
  match hs, final with
  | (a0, b0, c0, d0, e0, f0, g0, h0), (a, b, c, d, e, f, g, h) =>
    ((a0 + a) % w32, (b0 + b) % w32, (c0 + c) % w32, (d0 + d) % w32,
     (e0 + e) % w32, (f0 + f) % w32, (g0 + g) % w32, (h0 + h) % w32)

/-- SHA-256 of a byte list, producing the 32 digest bytes. -/
def sha256 (msg : List Nat) : List Nat :=
  match (shaChunks (shaPad msg)).foldl shaCompress shaH0 with
  | (a, b, c, d, e, f, g, h) =>
    toBytesBE 4 a ++ toBytesBE 4 b ++ toBytesBE 4 c ++ toBytesBE 4 d ++
    toBytesBE 4 e ++ toBytesBE 4 f ++ toBytesBE 4 g ++ toBytesBE 4 h

/-- `toBytesBE` always produces exactly `w` bytes. -/
theorem toBytesBE_length (w n : Nat) : (toBytesBE w n).length = w := by
  induction w generalizing n with
  | zero => rfl
  | succ w ih => simp [toBytesBE, ih]

/-- A SHA-256 digest is exactly 32 bytes long. -/
theorem sha256_length (msg : List Nat) : (sha256 msg).length = 32 := by
  unfold sha256
  obtain ⟨a, b, c, d, e, f, g, h⟩ := (shaChunks (shaPad msg)).foldl shaCompress shaH0
  simp [toBytesBE_length]

/-- FIPS 180-4 test vector: SHA-256 of the three-byte message `abc`. -/
theorem sha256_test_abc :
    sha256 (strBytes "abc") =
      [186, 120, 22, 191, 143, 1, 207, 234,
       65, 65, 64, 222, 93, 174, 34, 35,
       176, 3, 97, 163, 150, 23, 122, 156,
       180, 16, 255, 97, 242, 0, 21, 173] := by
  decide

/- ### Python exceptions surfaced by the module -/

/-- The exceptions the embedded code can raise: the module's own
    SharedMemoryConfigurationError (with its message), and the builtin
    KeyError, IndexError, ValueError, TypeError and FileNotFoundError. -/
inductive PyErr where
  | configError (msg : String)
  | keyError
  | indexError
  | valueError
  | typeError
  | fileNotFound
deriving DecidableEq, Repr

/-- Decidable equality of outcomes, so statements about concrete runs can
    be settled by evaluation. -/
instance {ε α : Type} [DecidableEq ε] [DecidableEq α] :
    DecidableEq (Except ε α) := fun x y =>
  match x, y with
  | .ok a, .ok b =>
      if h : a = b then isTrue (by rw [h])
      else isFalse (fun hc => h (Except.ok.inj hc))
  | .ok _, .error _ => isFalse (fun hc => Except.noConfusion hc)
  | .error _, .ok _ => isFalse (fun hc => Except.noConfusion hc)
  | .error a, .error b =>
      if h : a = b then isTrue (by rw [h])
      else isFalse (fun hc => h (Except.error.inj hc))

/- ### Field-name keys and their serializations -/

/-- A field name: the code accepts any hashable; strings and integers are
    the ones the module's defaulting and examples use.  Python equality
    never identifies a str with an int, matching DecidableEq here. -/
inductive Key where
  | str (s : String)
  | int (n : Int)
deriving DecidableEq, Repr

/-- JSON string escaping for the character subset this development feeds it
    (json.dumps additionally escapes control and non-ASCII characters,
    which do not occur in any input considered here). -/
def jsonEscChar (c : Char) : List Char :=
  if c = '"' then ['\\', '"']
  else if c = '\\' then ['\\', '\\']
  else [c]

/-- A JSON string literal. -/
def jsonStr (s : String) : String :=
  "\"" ++ String.mk (s.data.map jsonEscChar).flatten ++ "\""

/-- Python repr of a plain ASCII string without quotes or backslashes
    (the subset used in every input considered here). -/
def pyStrRepr (s : String) : String :=
  "'" ++ s ++ "'"

/-- json.dumps of one field name. -/
def jsonKey : Key → String
  | .str s => jsonStr s
  | .int n => toString n

/-- Python repr of one field name. -/
def reprKey : Key → String
  | .str s => pyStrRepr s
  | .int n => toString n

/-- The exact output of json.dumps on the my_cfg dict (line 225):
    insertion-ordered keys name, num, dtype, varnames, version and the
    default separators.  The digest is taken over this string, which holds
    the RAW varnames argument, before the empty-list defaulting. -/
def jsonDumpsCfg (name : String) (num : Nat) (dtype : String)
    (varnames : List Key) : String :=
  "\x7b\"name\": " ++ jsonStr name ++ ", \"num\": " ++ toString num ++
  ", \"dtype\": " ++ jsonStr dtype ++ ", \"varnames\": [" ++
  String.intercalate ", " (varnames.map jsonKey) ++
  "], \"version\": \"1.5.0\"\x7d"

/-- Python str/repr of the my_cfg dict, as interpolated into the mismatch
    error message (line 289). -/
def pyReprCfg (name : String) (num : Nat) (dtype : String)
    (varnames : List Key) : String :=
  "\x7b'name': " ++ pyStrRepr name ++ ", 'num': " ++ toString num ++
  ", 'dtype': " ++ pyStrRepr dtype ++ ", 'varnames': [" ++
  String.intercalate ", " (varnames.map reprKey) ++
  "], 'version': '1.5.0'\x7d"

/-- my_cfg_sha256 (lines 224-227): sha256 of the json serialization of the
    configuration. -/
def myCfgSha256 (name : String) (num : Nat) (dtype : String)
    (varnames : List Key) : List Nat :=
  sha256 (strBytes (jsonDumpsCfg name num dtype varnames))

/- ### The dtype registry (module-level dtypes dict, lines 118-131) -/

/-- The dtypes table: dtype tag to struct/memoryview format character. -/
def dtypes : List (String × Char) :=
  [("float64", 'd'), ("double", 'd'), ("float", 'f'), ("float32", 'f'),
   ("int64", 'q'), ("uint64", 'Q'), ("int32", 'l'), ("uint32", 'L'),
   ("int16", 'h'), ("uint16", 'H'), ("int8", 'b'), ("uint8", 'B'),
   ("bool", '?')]

/-- dtypes.get(dtype, None). -/
def dtypesGet (d : String) : Option Char :=
  (dtypes.find? (fun p => p.1 == d)).map Prod.snd

/-- struct.calcsize of one native format character on LP64 Linux; equal to
    the itemsize memoryview.cast uses for the same character. -/
def calcsize (fmt : Char) : Nat :=
  if fmt = 'd' then 8 else if fmt = 'f' then 4
  else if fmt = 'q' then 8 else if fmt = 'Q' then 8
  else if fmt = 'l' then 8 else if fmt = 'L' then 8
  else if fmt = 'h' then 2 else if fmt = 'H' then 2
  else 1

/-- The signed integer format characters. -/
def isSignedFmt (fmt : Char) : Bool :=
  fmt == 'b' || fmt == 'h' || fmt == 'l' || fmt == 'q'

/-- The format characters the dtypes table can produce. -/
def validFmt (fmt : Char) : Bool :=
  fmt == 'd' || fmt == 'f' || fmt == 'q' || fmt == 'Q' || fmt == 'l' ||
  fmt == 'L' || fmt == 'h' || fmt == 'H' || fmt == 'b' || fmt == 'B' ||
  fmt == '?'

/- ### Scalar codec: one memoryview element as bytes

    Scalars are stored little endian (x86-64).  Signed formats use two's
    complement.  Bool stores one byte, 0 or 1.  Float formats are
    represented here by their IEEE-754 bit patterns: the memoryview moves
    the bytes verbatim, so a float element is faithfully modeled by the
    64-bit (or 32-bit) pattern it stores. -/

/-- The values writable into one element of a cast memoryview of format
    `fmt` (out-of-range values raise ValueError).  Bool elements hold
    False or True, modeled 0 or 1; float elements are modeled by their bit
    patterns. -/
def representableB (fmt : Char) (v : Int) : Bool :=
  if fmt = '?' then v == 0 || v == 1
  else if isSignedFmt fmt then
    decide (-(2 ^ (8 * calcsize fmt - 1)) ≤ v) &&
    decide (v < 2 ^ (8 * calcsize fmt - 1))
  else decide (0 ≤ v) && decide (v < 2 ^ (8 * calcsize fmt))

/-- Encode one element into its `calcsize fmt` bytes. -/
def itemEncode (fmt : Char) (v : Int) : List Nat :=
  toBytesLE (calcsize fmt) (v % (2 ^ (8 * calcsize fmt) : Int)).toNat

/-- Decode one element from its bytes (a memoryview element read). -/
def itemDecode (fmt : Char) (bytes : List Nat) : Int :=
  let w := calcsize fmt
  let u := fromBytesLE bytes
  if fmt = '?' then (if u = 0 then 0 else 1)
  else if isSignedFmt fmt then
    (if u < 2 ^ (8 * w - 1) then (u : Int) else (u : Int) - 2 ^ (8 * w))
  else (u : Int)

/-- Memoryview slice assignment: overwrite `src.length` bytes of `buf`
    starting at `off`. -/
def writeRegion (buf : List Nat) (off : Nat) (src : List Nat) : List Nat :=
  buf.take off ++ src ++ buf.drop (off + src.length)

/-- One element read from the cast data view `arr` at a possibly negative
    Python index: as for every Python sequence, a negative index counts
    from the end; only indices that normalize outside [0, n) raise
    IndexError. -/
def arrGetS (fmt : Char) (arr : List Nat) (i : Int) : Except PyErr Int :=
  let w := calcsize fmt
  let n : Int := (arr.length / w : Nat)
  let ii := if i < 0 then i + n else i
  if 0 ≤ ii ∧ ii < n then
    .ok (itemDecode fmt ((arr.drop (ii.toNat * w)).take w))
  else .error .indexError

/-- One element write into the cast data view `arr`: index normalization
    and bounds check first, then the value-range check, then the store.
    On either failure the view is returned untouched beside the error. -/
def arrSetS (fmt : Char) (arr : List Nat) (i : Int) (v : Int) :
    List Nat × Option PyErr :=
  let w := calcsize fmt
  let n : Int := (arr.length / w : Nat)
  let ii := if i < 0 then i + n else i
  if 0 ≤ ii ∧ ii < n then
    if representableB fmt v then
      (writeRegion arr (ii.toNat * w) (itemEncode fmt v), none)
    else (arr, some .valueError)
  else (arr, some .indexError)

/- ### OS shared-memory environment (multiprocessing.shared_memory, POSIX) -/

/-- The machine's shared-memory namespace: named segments and their bytes
    (a created segment's byte length is the size its creator requested). -/
abbrev ShmEnv : Type := List (String × List Nat)

/-- Look a segment up by name. -/
def envLookup (env : ShmEnv) (name : String) : Option (List Nat) :=
  (env.find? (fun p => p.1 == name)).map Prod.snd

/-- shm_unlink: remove the name from the namespace. -/
def envRemove (env : ShmEnv) (name : String) : ShmEnv :=
  env.filter (fun p => p.1 != name)

/-- Store a segment's bytes under its name. -/
def envSet (env : ShmEnv) (name : String) (bytes : List Nat) : ShmEnv :=
  (name, bytes) :: envRemove env name

/-- Lines 259-268: create the shared memory or attach to an existing
    segment.  Models CPython multiprocessing.shared_memory on POSIX: an
    exclusive create of an existing name raises FileExistsError (caught by
    the code); an attach (create=False) IGNORES the size argument and maps
    the existing object at its actual size; an attach to an unlinked name
    raises FileNotFoundError.  On the reset path the code unlinks the
    existing object and then attaches with create=False, so that attach
    finds no object under the name and fails. -/
def shmOpenPhase (env : ShmEnv) (name : String) (nbytes : Nat)
    (reset : Bool) : ShmEnv × Except PyErr (List Nat) :=
  match envLookup env name with
  | none =>
      (envSet env name (List.replicate nbytes 0),
       .ok (List.replicate nbytes 0))
  | some bytes =>
      if reset then (envRemove env name, .error .fileNotFound)
      else (env, .ok bytes)

/- ### The SharedMemDict instance state -/

/-- The state of one SharedMemDict instance: its local view of the segment
    bytes, the layout, the name-to-slot dict, and whether close() ran. -/
structure SMD where
  buf : List Nat
  fmt : Char
  num : Nat
  nbytesData : Nat
  varnamesDict : List (Key × Nat)
  closed : Bool
deriving DecidableEq, Repr

/-- The _cfg guard view (line 272): buf[nbytes_data : nbytes_data+32],
    clamped like any Python slice. -/
def guardView (st : SMD) : List Nat :=
  (st.buf.drop st.nbytesData).take 32

/-- close() (lines 338-343): release the views and close the handle,
    modeled as marking the instance closed. -/
def closeS (st : SMD) : SMD := { st with closed := true }

/-- bytes.hex() / memoryview.hex(): lowercase, two digits per byte. -/
def hexDigit (n : Nat) : Char :=
  if n < 10 then Char.ofNat (48 + n) else Char.ofNat (87 + n)

/-- bytes.hex() of a byte list. -/
def hexStr (bs : List Nat) : String :=
  String.mk (bs.map (fun b => [hexDigit (b / 16), hexDigit (b % 16)])).flatten

/-- The literal text of the mismatch message before the interpolated
    config repr (the Python source writes it as adjacent string literals,
    concatenated by the compiler). -/
def mismatchMsgHead : String :=
  "    Shared Memory configuration does not match source configuration. " ++
  "Check that the configuration used by this instance is identical " ++
  "in variable name, case, and order. The configuration " ++
  "used by this instance is:\n\n"

/-- The literal text between the config repr and the instance's digest. -/
def mismatchMsgMid : String :=
  "\n\n    This instance's config sha256 hash is: "

/-- The literal text between the two hex digests. -/
def mismatchMsgMid2 : String :=
  "\n    The existing config sha256 hash is:    "

/-- The SchemaConfigurationMismatch message (lines 286-291), exactly as the
    f-string builds it: the instance's config repr, its digest in hex, and
    the hex of the guard bytes found in the segment. -/
def mismatchMsg (cfgRepr : String) (digest : List Nat) (guard : List Nat) :
    String :=
  mismatchMsgHead ++ cfgRepr ++ mismatchMsgMid ++ hexStr digest ++
  mismatchMsgMid2 ++ hexStr guard

/-- Lines 274-293: the configuration-hash arbitration.  all_zero and
    cfg_match are both computed before branching; cfg_match indexes the
    guard view at 0..31, so a guard shorter than 32 bytes raises
    IndexError before any branch.  On the all-zero (unclaimed) branch the
    digest is written through the guard view into the segment bytes; on a
    hash match nothing is written; otherwise the instance is closed and
    the configuration error raised. -/
def checkConfigPhase (st : SMD) (digest : List Nat) (cfgRepr : String) :
    SMD × Option PyErr :=
  let g := guardView st
  if g.length < 32 then (st, some .indexError)
  else
    let all_zero := g.all (fun b => b == 0)
    let cfg_match := (List.range 32).all (fun i => g.getD i 0 == digest.getD i 0)
    if all_zero then
      ({ st with buf := writeRegion st.buf st.nbytesData digest }, none)
    else if cfg_match then (st, none)
    else (closeS st, some (.configError (mismatchMsg cfgRepr digest g)))

/- ### Constructor-time validation -/

/-- Lines 239-241: when the varnames list is empty, default the field
    names to the integers 0..num-1. -/
def defaultVarnames (num : Nat) (varnames : List Key) : List Key :=
  if varnames.length = 0 then (List.range num).map (fun i => Key.int i)
  else varnames

/-- Python set(varnames): the distinct names.  CPython iterates a set in
    an implementation-defined order; List.dedup fixes one order, and
    foldl_erase_count below shows every fact proved about the resulting
    leftover multiset is the same for every order. -/
def pySet (l : List Key) : List Key := l.dedup

/-- Line 252: pop one occurrence of each distinct name from the caller's
    list, in place; whatever remains are the duplicate occurrences. -/
def popDuplicates (l : List Key) : List Key :=
  (pySet l).foldl (fun acc k => acc.erase k) l

/-- The line 221 message for an unknown dtype, including the repr of the
    dtypes dict. -/
def invalidDtypeMsg (dtype : String) : String :=
  "Invalid data type specified: '" ++ dtype ++
  "'. You must use one of the following:\n \x7b" ++
  String.intercalate ", "
    (dtypes.map (fun p => pyStrRepr p.1 ++ ": " ++ pyStrRepr (String.mk [p.2]))) ++
  "\x7d"

/-- The line 248 message for a name-count mismatch. -/
def countMismatchMsg (got num : Nat) : String :=
  "Number of variable names (len(varnames)=" ++ toString got ++
  ") do not match expected number (num=" ++ toString num ++ ")."

/-- The line 253 message: the repr of the set of leftover (duplicate)
    names. -/
def dupMsg (leftovers : List Key) : String :=
  "Found repeated variable names: \x7b" ++
  String.intercalate ", " ((pySet leftovers).map reprKey) ++ "\x7d"

/-- Line 256: the name-to-index dict from zipping the names with
    range(num); lookups see the first (only, names being distinct by now)
    binding of a key. -/
def mkVarnamesDict (l : List Key) (num : Nat) : List (Key × Nat) :=
  l.zip (List.range num)

/-- Python dict lookup d[k], as an Option. -/
def dictLookup (d : List (Key × Nat)) (k : Key) : Option Nat :=
  (d.find? (fun p => p.1 == k)).map Prod.snd

/- ### SharedMemDict.__init__ -/

/-- Lines 270-293, after the segment is mapped: bind the cast views (the
    cast at line 271 demands the sliced length be a multiple of the
    itemsize) and run the optional configuration check, writing any guard
    update back to the shared segment. -/
def smdAttachViews (env1 : ShmEnv) (buf0 : List Nat) (name : String)
    (num : Nat) (fmt : Char) (varnames : List Key) (dict : List (Key × Nat))
    (check_config : Bool) (d : List Nat) (r : String) :
    List Key × ShmEnv × Except PyErr SMD :=
  if (min (calcsize fmt * num) buf0.length) % calcsize fmt ≠ 0 then
    (varnames, env1, .error .typeError)
  else
    let st0 : SMD := ⟨buf0, fmt, num, calcsize fmt * num, dict, false⟩
    if check_config then
      match checkConfigPhase st0 d r with
      | (st1, some e) => (varnames, envSet env1 name st1.buf, .error e)
      | (st1, none) => (varnames, envSet env1 name st1.buf, .ok st1)
    else (varnames, env1, .ok st0)

/-- SharedMemDict.__init__ (lines 214-293), for list-typed varnames.
    Returns the final value of the caller's (aliased, in-place mutable)
    varnames list, the shared-memory namespace after the call, and either
    the constructed instance or the exception raised.  verbose printing is
    omitted; a varnames of None behaves exactly like the empty list. -/
def smdInit (env : ShmEnv) (name : String) (num : Nat) (dtype : String)
    (reset_shm : Bool) (varnames : List Key) (check_config : Bool) :
    List Key × ShmEnv × Except PyErr SMD :=
  match dtypesGet dtype with
  | none => (varnames, env, .error (.configError (invalidDtypeMsg dtype)))
  | some fmt =>
    let my_cfg_repr := pyReprCfg name num dtype varnames
    let my_cfg_sha256 := myCfgSha256 name num dtype varnames
    let nbytes_data := calcsize fmt * num
    let nbytes := nbytes_data + 32
    let vns := defaultVarnames num varnames
    if vns.length ≠ num then
      (varnames, env, .error (.configError (countMismatchMsg vns.length num)))
    else if vns.length ≠ (pySet vns).length then
      -- the caller's list is mutated in place before the raise: the
      -- duplicate branch can only trigger when the defaulting did not
      -- replace the list, so vns is the caller's own list here
      let leftovers := popDuplicates vns
      (leftovers, env, .error (.configError (dupMsg leftovers)))
    else
      let dict := mkVarnamesDict vns num
      match shmOpenPhase env name nbytes reset_shm with
      | (env1, .error e) => (varnames, env1, .error e)
      | (env1, .ok buf0) =>
          smdAttachViews env1 buf0 name num fmt varnames dict check_config
            my_cfg_sha256 my_cfg_repr

/- ### Element access on an instance -/

/-- The cast data view arr (line 271): the first nbytes_data bytes of the
    segment. -/
def arrView (st : SMD) : List Nat :=
  st.buf.take st.nbytesData

/-- getvar / __getitem__ (lines 307-308 and 331-332): a dict lookup, then
    an element read from the cast view; an absent key raises KeyError. -/
def getvarS (st : SMD) (k : Key) : Except PyErr Int :=
  match dictLookup st.varnamesDict k with
  | none => .error .keyError
  | some i => arrGetS st.fmt (arrView st) (Int.ofNat i)

/-- setvar / __setitem__ (lines 310-311 and 334-336): a dict lookup, then
    an element write through the cast view; on any error the buffer is
    returned untouched beside the exception. -/
def setvarS (st : SMD) (k : Key) (v : Int) : SMD × Option PyErr :=
  match dictLookup st.varnamesDict k with
  | none => (st, some .keyError)
  | some i =>
    match arrSetS st.fmt (arrView st) (Int.ofNat i) v with
    | (arr1, none) => ({ st with buf := writeRegion st.buf 0 arr1 }, none)
    | (_, some e) => (st, some e)

/- ### Supporting lemmas: byte codec -/

/-- `toBytesLE` always produces exactly `w` bytes. -/
theorem toBytesLE_length (w n : Nat) : (toBytesLE w n).length = w := by
  induction w generalizing n with
  | zero => rfl
  | succ w ih => simp [toBytesLE, ih]

/-- Little-endian round trip for values below `256 ^ w`. -/
theorem fromBytesLE_toBytesLE (w n : Nat) (h : n < 256 ^ w) :
    fromBytesLE (toBytesLE w n) = n := by
  induction w generalizing n with
  | zero =>
      simp [toBytesLE, fromBytesLE]
      omega
  | succ w ih =>
      simp only [toBytesLE, fromBytesLE]
      rw [ih]
      · omega
      · have : 256 ^ (w + 1) = 256 ^ w * 256 := by ring
        omega

/-- `calcsize` is positive for every format character. -/
theorem calcsize_pos (fmt : Char) : 0 < calcsize fmt := by
  unfold calcsize
  split_ifs <;> decide

/-- Unsigned element round trip (also the float bit-pattern case). -/
theorem itemDecode_itemEncode_unsigned (fmt : Char) (v : Int)
    (hq : ¬ fmt = '?') (hs : isSignedFmt fmt = false)
    (h0 : 0 ≤ v) (h1 : v < 2 ^ (8 * calcsize fmt)) :
    itemDecode fmt (itemEncode fmt v) = v := by
  have he : v % ((2 : Int) ^ (8 * calcsize fmt)) = v := Int.emod_eq_of_lt h0 h1
  have hcast : ((256 ^ calcsize fmt : Nat) : Int) = 2 ^ (8 * calcsize fmt) := by
    push_cast
    rw [pow_mul]
    norm_num
  have hlt : v.toNat < 256 ^ calcsize fmt := by
    have h2 : (v.toNat : Int) = v := Int.toNat_of_nonneg h0
    have h3 : (v.toNat : Int) < ((256 ^ calcsize fmt : Nat) : Int) := by
      rw [h2, hcast]
      exact h1
    exact_mod_cast h3
  unfold itemDecode itemEncode
  rw [if_neg hq, he, fromBytesLE_toBytesLE _ _ hlt]
  simp only [hs, Bool.false_eq_true, if_false]
  exact Int.toNat_of_nonneg h0

/-- Signed (two's complement) element round trip. -/
theorem itemDecode_itemEncode_signed (fmt : Char) (v : Int)
    (hq : ¬ fmt = '?') (hs : isSignedFmt fmt = true)
    (h0 : -(2 ^ (8 * calcsize fmt - 1)) ≤ v)
    (h1 : v < 2 ^ (8 * calcsize fmt - 1)) :
    itemDecode fmt (itemEncode fmt v) = v := by
  have hwpos := calcsize_pos fmt
  have hsplit : 8 * calcsize fmt = 8 * calcsize fmt - 1 + 1 := by omega
  have hM : (2 : Int) ^ (8 * calcsize fmt) = 2 * 2 ^ (8 * calcsize fmt - 1) := by
    conv_lhs => rw [hsplit]
    rw [pow_succ, mul_comm]
  have hKpos : (0 : Int) < 2 ^ (8 * calcsize fmt - 1) := by positivity
  have hcast : ((2 ^ (8 * calcsize fmt - 1) : Nat) : Int) =
      (2 : Int) ^ (8 * calcsize fmt - 1) := by
    push_cast
    ring
  have hcastm : ((2 ^ (8 * calcsize fmt) : Nat) : Int) =
      (2 : Int) ^ (8 * calcsize fmt) := by
    push_cast
    ring
  have hMn : (256 : Nat) ^ calcsize fmt = 2 ^ (8 * calcsize fmt) := by
    rw [pow_mul]
    norm_num
  rcases le_or_lt 0 v with hpos | hneg
  · have he : v % ((2 : Int) ^ (8 * calcsize fmt)) = v :=
      Int.emod_eq_of_lt hpos (by omega)
    have hu : (v.toNat : Int) = v := Int.toNat_of_nonneg hpos
    have hun : v.toNat < 256 ^ calcsize fmt := by
      rw [hMn]
      omega
    unfold itemDecode itemEncode
    rw [if_neg hq, he, fromBytesLE_toBytesLE _ _ hun]
    simp only [hs, if_true]
    rw [if_pos (by omega)]
    exact hu
  · have hpos2 : (0 : Int) ≤ v + 2 ^ (8 * calcsize fmt) := by omega
    have hlt2 : v + 2 ^ (8 * calcsize fmt) < 2 ^ (8 * calcsize fmt) := by omega
    have he : v % ((2 : Int) ^ (8 * calcsize fmt)) = v + 2 ^ (8 * calcsize fmt) := by
      have h4 := Int.add_mul_emod_self_left (a := v)
        (b := (2 : Int) ^ (8 * calcsize fmt)) (c := 1)
      rw [mul_one] at h4
      rw [← h4]
      exact Int.emod_eq_of_lt hpos2 hlt2
    have hu : ((v + 2 ^ (8 * calcsize fmt)).toNat : Int) =
        v + 2 ^ (8 * calcsize fmt) := Int.toNat_of_nonneg hpos2
    have hun : (v + 2 ^ (8 * calcsize fmt)).toNat < 256 ^ calcsize fmt := by
      rw [hMn]
      omega
    unfold itemDecode itemEncode
    rw [if_neg hq, he, fromBytesLE_toBytesLE _ _ hun]
    simp only [hs, if_true]
    rw [if_neg (by omega)]
    omega

/-- Element round trip: any value a memoryview element of format `fmt`
    accepts is read back unchanged. -/
theorem itemDecode_itemEncode (fmt : Char) (v : Int)
    (hv : representableB fmt v = true) :
    itemDecode fmt (itemEncode fmt v) = v := by
  by_cases hq : fmt = '?'
  · subst hq
    have hv2 : v = 0 ∨ v = 1 := by
      simpa [representableB] using hv
    rcases hv2 with h | h <;> subst h <;> decide
  · by_cases hs : isSignedFmt fmt = true
    · have hb : -(2 ^ (8 * calcsize fmt - 1)) ≤ v ∧
          v < 2 ^ (8 * calcsize fmt - 1) := by
        simpa [representableB, hq, hs] using hv
      exact itemDecode_itemEncode_signed fmt v hq hs hb.1 hb.2
    · have hs2 : isSignedFmt fmt = false := by
        revert hs
        cases isSignedFmt fmt <;> simp
      have hb : 0 ≤ v ∧ v < 2 ^ (8 * calcsize fmt) := by
        simpa [representableB, hq, hs2] using hv
      exact itemDecode_itemEncode_unsigned fmt v hq hs2 hb.1 hb.2

/-- An in-bounds region write leaves the buffer length unchanged. -/
theorem writeRegion_length (buf src : List Nat) (off : Nat)
    (h : off + src.length ≤ buf.length) :
    (writeRegion buf off src).length = buf.length := by
  simp only [writeRegion, List.length_append, List.length_take,
    List.length_drop]
  omega

/-- Reading back the region just written returns the written bytes. -/
theorem writeRegion_slice (buf src : List Nat) (off : Nat)
    (h : off + src.length ≤ buf.length) :
    ((writeRegion buf off src).drop off).take src.length = src := by
  unfold writeRegion
  rw [List.append_assoc]
  rw [List.drop_left' (by simp; omega)]
  exact List.take_left src _

/-- C6: for every slot index i in [0, slot_count) and every value v
    representable in the segment's scalar type, set(i, v) followed by
    get(i) on the same data view succeeds and returns v.  The view is the
    one the constructor builds: slot_count elements of calcsize fmt bytes
    each.  Float formats are read as their exact stored bit patterns. -/
theorem claim_C6_set_get_roundtrip (fmt : Char) (num : Nat) (arr : List Nat)
    (i : Nat) (v : Int)
    (hlen : arr.length = calcsize fmt * num) (hi : i < num)
    (hv : representableB fmt v = true) :
    (arrSetS fmt arr (i : Int) v).2 = none ∧
    arrGetS fmt (arrSetS fmt arr (i : Int) v).1 (i : Int) = Except.ok v := by
  have hw := calcsize_pos fmt
  have hn : arr.length / calcsize fmt = num := by
    rw [hlen, Nat.mul_div_cancel_left _ hw]
  have henc : (itemEncode fmt v).length = calcsize fmt := by
    rw [itemEncode, toBytesLE_length]
  have hbound : i * calcsize fmt + (itemEncode fmt v).length ≤ arr.length := by
    rw [henc, hlen]
    have h2 : i * calcsize fmt + calcsize fmt = (i + 1) * calcsize fmt := by
      ring
    have h3 : (i + 1) * calcsize fmt ≤ num * calcsize fmt :=
      Nat.mul_le_mul_right _ hi
    rw [mul_comm (calcsize fmt) num]
    linarith
  have hcond : (0 : Int) ≤ (i : Int) ∧ (i : Int) < ((arr.length / calcsize fmt : Nat) : Int) := by
    rw [hn]
    omega
  have hset : arrSetS fmt arr (i : Int) v =
      (writeRegion arr (i * calcsize fmt) (itemEncode fmt v), none) := by
    simp only [arrSetS]
    rw [if_neg (by omega : ¬ ((i : Int) < 0))]
    rw [if_pos hcond, if_pos hv]
    simp
  refine ⟨by rw [hset], ?_⟩
  rw [hset]
  have hA : (writeRegion arr (i * calcsize fmt) (itemEncode fmt v)).length =
      arr.length := writeRegion_length _ _ _ hbound
  have hcond2 : (0 : Int) ≤ (i : Int) ∧
      (i : Int) < (((writeRegion arr (i * calcsize fmt) (itemEncode fmt v)).length /
        calcsize fmt : Nat) : Int) := by
    rw [hA, hn]
    omega
  simp only [arrGetS]
  rw [if_neg (by omega : ¬ ((i : Int) < 0))]
  rw [if_pos hcond2]
  have hslice : ((writeRegion arr (i * calcsize fmt) (itemEncode fmt v)).drop
      ((i : Int).toNat * calcsize fmt)).take (calcsize fmt) = itemEncode fmt v := by
    have ht : (i : Int).toNat = i := by omega
    rw [ht]
    have := writeRegion_slice arr (itemEncode fmt v) (i * calcsize fmt) hbound
    rw [henc] at this
    exact this
  rw [hslice, itemDecode_itemEncode fmt v hv]

/- ### Supporting lemmas: duplicate popping -/

/-- Counts after erasing each element of `order` once, in order. -/
theorem count_foldl_erase (order l : List Key) (x : Key) :
    (order.foldl (fun acc k => acc.erase k) l).count x =
      l.count x - order.count x := by
  induction order generalizing l with
  | nil => simp
  | cons k rest ih =>
      simp only [List.foldl_cons, ih, List.count_erase, List.count_cons]
      split_ifs <;> omega

/-- The leftover multiset after popping does not depend on the order in
    which the distinct names are visited: any enumeration with the same
    counts as set(varnames) leaves the same leftovers.  CPython's set
    iteration order is therefore irrelevant to everything proved below. -/
theorem foldl_erase_order_invariant (order l : List Key)
    (h : ∀ x, order.count x = (pySet l).count x) (x : Key) :
    (order.foldl (fun acc k => acc.erase k) l).count x =
      (popDuplicates l).count x := by
  rw [count_foldl_erase, h x, popDuplicates, count_foldl_erase]

/-- Popping one occurrence of each distinct name decrements each present
    name's count by exactly one. -/
theorem popDuplicates_count (l : List Key) (x : Key) :
    (popDuplicates l).count x = l.count x - (if x ∈ l then 1 else 0) := by
  unfold popDuplicates
  rw [count_foldl_erase]
  unfold pySet
  rw [List.count_dedup]

/-- The leftovers are exactly the names occurring at least twice. -/
theorem popDuplicates_mem (l : List Key) (x : Key) :
    x ∈ popDuplicates l ↔ 2 ≤ l.count x := by
  rw [← List.count_pos_iff, popDuplicates_count]
  by_cases h : x ∈ l
  · rw [if_pos h]
    omega
  · rw [if_neg h]
    have h0 : l.count x = 0 := List.count_eq_zero_of_not_mem h
    omega

/-- When the list has a duplicate, popping changes it. -/
theorem popDuplicates_ne (l : List Key) (h : ¬ l.Nodup) :
    popDuplicates l ≠ l := by
  intro heq
  rw [List.nodup_iff_count_le_one] at h
  push_neg at h
  obtain ⟨a, ha⟩ := h
  have hc := popDuplicates_count l a
  rw [heq] at hc
  have hmem : a ∈ l := by
    rw [← List.count_pos_iff]
    omega
  rw [if_pos hmem] at hc
  omega

/-- The duplicate check at line 251 fires exactly on non-distinct lists. -/
theorem pySet_length_eq_iff (l : List Key) :
    l.length = (pySet l).length ↔ l.Nodup := by
  constructor
  · intro h
    have hsub : (pySet l).Sublist l := List.dedup_sublist l
    have heq : pySet l = l := hsub.eq_of_length h.symm
    rw [← heq]
    exact List.nodup_dedup l
  · intro h
    rw [pySet, List.dedup_eq_self.mpr h]

/- ### Supporting lemmas: the guard comparison -/

/-- The element-by-element loop of line 277 is equality of the two 32-byte
    strings. -/
theorem all_getD_eq_iff (g d : List Nat) (hg : g.length = 32)
    (hd : d.length = 32) :
    ((List.range 32).all (fun i => g.getD i 0 == d.getD i 0) = true) ↔
      g = d := by
  rw [List.all_eq_true]
  constructor
  · intro h
    apply List.ext_getElem (by omega)
    intro n h1 h2
    have hn : n < 32 := by omega
    have h3 := h n (List.mem_range.mpr hn)
    rw [beq_iff_eq] at h3
    rw [List.getD_eq_getElem g 0 h1, List.getD_eq_getElem d 0 h2] at h3
    exact h3
  · intro h i _
    rw [h, beq_iff_eq]

/-- The duplicate-name message never coincides with the mismatch message
    (they begin with different literal text). -/
theorem mismatchMsg_ne_dupMsg (cfgRepr : String) (digest guard : List Nat)
    (l : List Key) : mismatchMsg cfgRepr digest guard ≠ dupMsg l := by
  intro h
  have h2 := congrArg (fun s => s.data.head?) h
  simp only [mismatchMsg, mismatchMsgHead, dupMsg, String.data_append,
    List.head?_append] at h2
  have e1 : ("    Shared Memory configuration does not match source configuration. " : String).data.head? = some ' ' := rfl
  have e2 : ("Found repeated variable names: \x7b" : String).data.head? =
      some 'F' := rfl
  rw [e1, e2] at h2
  simp only [Option.or] at h2
  exact absurd (Option.some.inj h2) (by decide)

/-- The open phase can only raise FileNotFoundError. -/
theorem shmOpenPhase_error_form (env : ShmEnv) (name : String) (nbytes : Nat)
    (reset : Bool) (env2 : ShmEnv) (e : PyErr)
    (h : shmOpenPhase env name nbytes reset = (env2, .error e)) :
    e = .fileNotFound := by
  unfold shmOpenPhase at h
  split at h
  · simp at h
  · split_ifs at h with hr
    · simp only [Prod.mk.injEq, Except.error.injEq] at h
      exact h.2.symm
    · simp at h

/-- The config check can only raise IndexError or the mismatch error. -/
theorem checkConfigPhase_error_form (st : SMD) (d : List Nat) (r : String)
    (e : PyErr) (h : (checkConfigPhase st d r).2 = some e) :
    e = .indexError ∨ e = .configError (mismatchMsg r d (guardView st)) := by
  simp only [checkConfigPhase] at h
  split_ifs at h with h1 h2 h3 <;>
    first
      | exact Or.inl h.symm
      | exact Or.inr h.symm
      | exact Or.inl (Option.some.inj h).symm
      | exact Or.inr (Option.some.inj h).symm

/-- The attach-and-check tail of the constructor never raises the
    duplicate-name error. -/
theorem smdAttachViews_no_dupError (env1 : ShmEnv) (buf0 : List Nat)
    (name : String) (num : Nat) (fmt : Char) (varnames : List Key)
    (dict : List (Key × Nat)) (check : Bool) (d : List Nat) (r : String)
    (l : List Key) :
    (smdAttachViews env1 buf0 name num fmt varnames dict check d r).2.2 ≠
      Except.error (PyErr.configError (dupMsg l)) := by
  unfold smdAttachViews
  split_ifs with h1 h2
  · simp
  · rcases hchk : checkConfigPhase
        ⟨buf0, fmt, num, calcsize fmt * num, dict, false⟩ d r with ⟨st1, oe⟩
    simp only [hchk]
    cases oe with
    | none => simp
    | some e3 =>
        have h3 : (checkConfigPhase
            ⟨buf0, fmt, num, calcsize fmt * num, dict, false⟩ d r).2 =
            some e3 := by rw [hchk]
        intro hcontra
        simp only [Except.error.injEq] at hcontra
        rcases checkConfigPhase_error_form _ _ _ _ h3 with h4 | h4 <;>
          subst h4
        · simp at hcontra
        · exact mismatchMsg_ne_dupMsg _ _ _ _ (PyErr.configError.inj hcontra)
  · simp

/-- With a length-matching list the empty-list defaulting is the
    identity. -/
theorem defaultVarnames_eq_self (num : Nat) (varnames : List Key)
    (hlen : varnames.length = num) :
    defaultVarnames num varnames = varnames := by
  unfold defaultVarnames
  split_ifs with h
  · have h2 : varnames = [] := List.length_eq_zero.mp h
    subst h2
    simp only [List.length_nil] at hlen
    rw [← hlen]
    rfl
  · rfl

/-- The duplicate branch of the constructor: the caller's (mutated) list
    of leftovers is returned beside the raised error. -/
theorem smdInit_dup (env : ShmEnv) (name : String) (num : Nat)
    (dtype : String) (reset check : Bool) (fmt : Char) (varnames : List Key)
    (hfmt : dtypesGet dtype = some fmt) (hlen : varnames.length = num)
    (hdup : ¬ varnames.Nodup) :
    smdInit env name num dtype reset varnames check =
      (popDuplicates varnames, env,
        .error (.configError (dupMsg (popDuplicates varnames)))) := by
  have hdef := defaultVarnames_eq_self num varnames hlen
  have hd2 : varnames.length ≠ (pySet varnames).length := fun heq =>
    hdup ((pySet_length_eq_iff varnames).mp heq)
  simp only [smdInit, hfmt, hdef]
  rw [if_neg (by omega : ¬ varnames.length ≠ num)]
  rw [if_pos hd2]

/-- C10: when the supplied field_names list contains a duplicate, the
    constructor mutates the caller's own list in place before raising: it
    removes one occurrence of each distinct name, leaving only the extra
    duplicate occurrences, so after catching the error the caller's list
    no longer equals the list passed in. -/
theorem claim_C10_caller_list_mutated (env : ShmEnv) (name : String)
    (num : Nat) (dtype : String) (reset check : Bool) (fmt : Char)
    (varnames : List Key)
    (hfmt : dtypesGet dtype = some fmt) (hlen : varnames.length = num)
    (hdup : ¬ varnames.Nodup) :
    (smdInit env name num dtype reset varnames check).1 =
        popDuplicates varnames ∧
    (∀ x, (popDuplicates varnames).count x =
        varnames.count x - (if x ∈ varnames then 1 else 0)) ∧
    (smdInit env name num dtype reset varnames check).1 ≠ varnames := by
  rw [smdInit_dup env name num dtype reset check fmt varnames hfmt hlen hdup]
  exact ⟨rfl, fun x => popDuplicates_count varnames x,
    popDuplicates_ne varnames hdup⟩

/-- C10 witness: a concrete duplicated list, mutated by the failed call. -/
theorem claim_C10_witness :
    dtypesGet "float64" = some 'd' ∧
    [Key.str "a", Key.str "b", Key.str "a"].length = 3 ∧
    ¬ [Key.str "a", Key.str "b", Key.str "a"].Nodup ∧
    (smdInit [] "t" 3 "float64" false
        [Key.str "a", Key.str "b", Key.str "a"] true).1 ≠
      [Key.str "a", Key.str "b", Key.str "a"] :=
  ⟨by decide, by decide, by decide,
    (claim_C10_caller_list_mutated [] "t" 3 "float64" false true 'd'
      [Key.str "a", Key.str "b", Key.str "a"] (by decide) (by decide)
      (by decide)).2.2⟩

/-- C7: with a length-matching list, construction raises the duplicate
    error exactly when some name repeats, and the reported set (the
    distinct leftovers interpolated into the message) is exactly the set
    of names occurring more than once. -/
theorem claim_C7_duplicate_detection (env : ShmEnv) (name : String)
    (num : Nat) (dtype : String) (reset check : Bool) (fmt : Char)
    (varnames : List Key)
    (hfmt : dtypesGet dtype = some fmt) (hlen : varnames.length = num) :
    ((smdInit env name num dtype reset varnames check).2.2 =
        .error (.configError (dupMsg (popDuplicates varnames))) ↔
      ¬ varnames.Nodup) ∧
    (∀ x, x ∈ pySet (popDuplicates varnames) ↔ 2 ≤ varnames.count x) := by
  refine ⟨⟨?_, ?_⟩, ?_⟩
  · intro heq
    by_contra hnd
    have hdef := defaultVarnames_eq_self num varnames hlen
    have hlen2 : varnames.length = (pySet varnames).length :=
      (pySet_length_eq_iff varnames).mpr hnd
    simp only [smdInit, hfmt, hdef] at heq
    rw [if_neg (by omega : ¬ varnames.length ≠ num)] at heq
    rw [if_neg (fun h => h hlen2)] at heq
    rcases hopen : shmOpenPhase env name (calcsize fmt * num + 32) reset with
      ⟨env1, e⟩
    cases e with
    | error e2 =>
        have he2 := shmOpenPhase_error_form env name _ reset env1 e2 hopen
        subst he2
        simp only [hopen] at heq
        simp at heq
    | ok buf0 =>
        simp only [hopen] at heq
        exact smdAttachViews_no_dupError env1 buf0 name num fmt varnames
          (mkVarnamesDict varnames num) check
          (myCfgSha256 name num dtype varnames)
          (pyReprCfg name num dtype varnames) (popDuplicates varnames) heq
  · intro hdup
    rw [smdInit_dup env name num dtype reset check fmt varnames hfmt hlen hdup]
  · intro x
    rw [pySet, List.mem_dedup]
    exact popDuplicates_mem varnames x

/-- C7 witness: five names with one duplicate raise the duplicate error
    naming it; five distinct names do not. -/
theorem claim_C7_witness :
    dtypesGet "float64" = some 'd' ∧
    [Key.str "a", Key.str "b", Key.str "c", Key.str "d",
      Key.str "b"].length = 5 ∧
    ((smdInit [] "w" 5 "float64" false
        [Key.str "a", Key.str "b", Key.str "c", Key.str "d", Key.str "b"]
        true).2.2 =
      .error (.configError (dupMsg (popDuplicates
        [Key.str "a", Key.str "b", Key.str "c", Key.str "d",
          Key.str "b"])))) :=
  ⟨by decide, by decide,
    ((claim_C7_duplicate_detection [] "w" 5 "float64" false true 'd'
        [Key.str "a", Key.str "b", Key.str "c", Key.str "d", Key.str "b"]
        (by decide) (by decide)).1).mpr (by decide)⟩

/-- C1: guard arbitration.  With check_config on and a full-size segment
    (32 guard bytes), the constructor's check either claims an all-zero
    guard by writing this instance's 32-byte sha256 configuration digest
    into it and succeeds; or finds the guard equal to the digest and
    succeeds without writing; or fails with the configuration-mismatch
    error. -/
theorem claim_C1_guard_arbitration (st : SMD) (name : String) (num : Nat)
    (dtype : String) (varnames : List Key)
    (hg : (guardView st).length = 32) :
    ((guardView st).all (fun b => b == 0) = true →
        checkConfigPhase st (myCfgSha256 name num dtype varnames)
            (pyReprCfg name num dtype varnames) =
          ({ st with buf := (writeRegion st.buf st.nbytesData
              (myCfgSha256 name num dtype varnames)) }, none)) ∧
    ((guardView st).all (fun b => b == 0) = false →
      guardView st = myCfgSha256 name num dtype varnames →
        checkConfigPhase st (myCfgSha256 name num dtype varnames)
            (pyReprCfg name num dtype varnames) = (st, none)) ∧
    ((guardView st).all (fun b => b == 0) = false →
      guardView st ≠ myCfgSha256 name num dtype varnames →
        checkConfigPhase st (myCfgSha256 name num dtype varnames)
            (pyReprCfg name num dtype varnames) =
          (closeS st, some (.configError (mismatchMsg
            (pyReprCfg name num dtype varnames)
            (myCfgSha256 name num dtype varnames) (guardView st))))) := by
  have hd : (myCfgSha256 name num dtype varnames).length = 32 :=
    sha256_length _
  refine ⟨?_, ?_, ?_⟩
  · intro hz
    simp only [checkConfigPhase]
    rw [if_neg (by omega), if_pos hz]
  · intro hz heq
    simp only [checkConfigPhase]
    rw [if_neg (by omega)]
    rw [if_neg (by simp [hz])]
    rw [if_pos ((all_getD_eq_iff _ _ hg hd).mpr heq)]
  · intro hz hne
    simp only [checkConfigPhase]
    rw [if_neg (by omega)]
    rw [if_neg (by simp [hz])]
    rw [if_neg (fun hmatch => hne ((all_getD_eq_iff _ _ hg hd).mp hmatch))]

/-- C1 witness: a freshly zero-filled one-slot uint8 segment is claimed. -/
theorem claim_C1_witness :
    (guardView ⟨List.replicate 33 0, 'B', 1, 1, [(Key.int 0, 0)],
        false⟩).length = 32 ∧
    (guardView ⟨List.replicate 33 0, 'B', 1, 1, [(Key.int 0, 0)],
        false⟩).all (fun b => b == 0) = true ∧
    checkConfigPhase ⟨List.replicate 33 0, 'B', 1, 1, [(Key.int 0, 0)], false⟩
        (myCfgSha256 "a" 1 "uint8" []) (pyReprCfg "a" 1 "uint8" []) =
      ({ (⟨List.replicate 33 0, 'B', 1, 1, [(Key.int 0, 0)], false⟩ : SMD)
          with buf := (writeRegion (List.replicate 33 0) 1
            (myCfgSha256 "a" 1 "uint8" [])) }, none) :=
  ⟨by decide, by decide,
    (claim_C1_guard_arbitration
      ⟨List.replicate 33 0, 'B', 1, 1, [(Key.int 0, 0)], false⟩
      "a" 1 "uint8" [] (by decide)).1 (by decide)⟩

/-- C3: on a digest mismatch the check fails with the configuration
    mismatch error, whose message interpolates the attaching instance's
    schema repr and both digests in hex, and the instance is closed before
    the error is raised, so no live view is retained. -/
theorem claim_C3_mismatch_error_contents (st : SMD) (digest : List Nat)
    (cfgRepr : String)
    (hg : (guardView st).length = 32) (hd : digest.length = 32)
    (hz : (guardView st).all (fun b => b == 0) = false)
    (hne : guardView st ≠ digest) :
    checkConfigPhase st digest cfgRepr =
        (closeS st, some (.configError
          (mismatchMsg cfgRepr digest (guardView st)))) ∧
    (closeS st).closed = true ∧
    (∃ a b, (mismatchMsg cfgRepr digest (guardView st)).data =
        a ++ (hexStr digest).data ++ b) ∧
    (∃ a b, (mismatchMsg cfgRepr digest (guardView st)).data =
        a ++ (hexStr (guardView st)).data ++ b) ∧
    (∃ a b, (mismatchMsg cfgRepr digest (guardView st)).data =
        a ++ cfgRepr.data ++ b) := by
  refine ⟨?_, rfl, ?_, ?_, ?_⟩
  · simp only [checkConfigPhase]
    rw [if_neg (by omega)]
    rw [if_neg (by simp [hz])]
    rw [if_neg (fun hmatch => hne ((all_getD_eq_iff _ _ hg hd).mp hmatch))]
  · exact ⟨(mismatchMsgHead ++ cfgRepr ++ mismatchMsgMid).data,
      (mismatchMsgMid2 ++ hexStr (guardView st)).data,
      by simp [mismatchMsg, String.data_append, List.append_assoc]⟩
  · exact ⟨(mismatchMsgHead ++ cfgRepr ++ mismatchMsgMid ++ hexStr digest ++
        mismatchMsgMid2).data, [],
      by simp [mismatchMsg, String.data_append, List.append_assoc]⟩
  · exact ⟨mismatchMsgHead.data,
      (mismatchMsgMid ++ hexStr digest ++ mismatchMsgMid2 ++
        hexStr (guardView st)).data,
      by simp [mismatchMsg, String.data_append, List.append_assoc]⟩

/-- C3 witness: a one-slot uint8 segment whose guard holds 32 bytes of 5,
    checked against a digest of 32 bytes of 7. -/
theorem claim_C3_witness :
    (guardView ⟨0 :: List.replicate 32 5, 'B', 1, 1, [(Key.int 0, 0)],
        false⟩).length = 32 ∧
    (List.replicate 32 7).length = 32 ∧
    (guardView ⟨0 :: List.replicate 32 5, 'B', 1, 1, [(Key.int 0, 0)],
        false⟩).all (fun b => b == 0) = false ∧
    guardView ⟨0 :: List.replicate 32 5, 'B', 1, 1, [(Key.int 0, 0)],
        false⟩ ≠ List.replicate 32 7 ∧
    (checkConfigPhase ⟨0 :: List.replicate 32 5, 'B', 1, 1, [(Key.int 0, 0)],
        false⟩ (List.replicate 32 7) "cfg" =
      (closeS ⟨0 :: List.replicate 32 5, 'B', 1, 1, [(Key.int 0, 0)], false⟩,
        some (.configError (mismatchMsg "cfg" (List.replicate 32 7)
          (guardView ⟨0 :: List.replicate 32 5, 'B', 1, 1, [(Key.int 0, 0)],
            false⟩))))) :=
  ⟨by decide, by decide, by decide, by decide,
    (claim_C3_mismatch_error_contents
      ⟨0 :: List.replicate 32 5, 'B', 1, 1, [(Key.int 0, 0)], false⟩
      (List.replicate 32 7) "cfg" (by decide) (by decide) (by decide)
      (by decide)).1⟩

/-- C8: for a name absent from the name-to-slot table, getvar and setvar
    always raise the key-lookup error (KeyError, the spec's
    UnknownFieldName); no default is returned and the instance, hence
    every slot, is left untouched. -/
theorem claim_C8_unknown_name (st : SMD) (k : Key) (v : Int)
    (h : dictLookup st.varnamesDict k = none) :
    getvarS st k = .error .keyError ∧
    setvarS st k v = (st, some .keyError) := by
  constructor
  · simp only [getvarS, h]
  · simp only [setvarS, h]

/-- C8 witness: reading or writing the absent name y on a one-field
    instance. -/
theorem claim_C8_witness :
    dictLookup ([(Key.str "x", 0)] : List (Key × Nat)) (Key.str "y") =
        none ∧
    getvarS ⟨List.replicate 33 0, 'B', 1, 1, [(Key.str "x", 0)], false⟩
        (Key.str "y") = .error .keyError :=
  ⟨by decide,
    (claim_C8_unknown_name
      ⟨List.replicate 33 0, 'B', 1, 1, [(Key.str "x", 0)], false⟩
      (Key.str "y") 7 (by decide)).1⟩

/-- C9 counterexample: on a three-slot uint8 view holding 10, 20, 30, the
    slot read at index -1 does not fail: it returns the last slot's value
    30, and the slot write at -1 succeeds and overwrites that slot —
    negative indices address slots from the end, as for every Python
    sequence, contradicting the claim that they fail. -/
theorem claim_C9_counterexample :
    arrGetS 'B' [10, 20, 30] (-1) = .ok 30 ∧
    arrSetS 'B' [10, 20, 30] (-1) 7 = ([10, 20, 7], none) := by
  decide

/-- C9 amended: the typed slot view raises IndexError, without reading or
    writing any slot, exactly for the indices whose Python normalization
    falls outside [0, slot_count): i at least slot_count, or i below
    -slot_count.  (Negative indices down to -slot_count address slots from
    the end instead of failing.) -/
theorem claim_C9_amended_bounds (fmt : Char) (arr : List Nat) (i v : Int)
    (h : ((arr.length / calcsize fmt : Nat) : Int) ≤ i ∨
      i < -((arr.length / calcsize fmt : Nat) : Int)) :
    arrGetS fmt arr i = .error .indexError ∧
    arrSetS fmt arr i v = (arr, some .indexError) := by
  have hn : ¬ (0 ≤ (if i < 0 then
        i + ((arr.length / calcsize fmt : Nat) : Int) else i) ∧
      (if i < 0 then i + ((arr.length / calcsize fmt : Nat) : Int) else i) <
        ((arr.length / calcsize fmt : Nat) : Int)) := by
    split_ifs with hi <;> omega
  constructor
  · simp only [arrGetS]
    rw [if_neg hn]
  · simp only [arrSetS]
    rw [if_neg hn]

/-- C9 witness: index 3 on a three-slot view fails both ways, leaving the
    bytes alone. -/
theorem claim_C9_witness :
    (((([10, 20, 30] : List Nat).length / calcsize 'B' : Nat) : Int) ≤ 3 ∨
      (3 : Int) < -((([10, 20, 30] : List Nat).length / calcsize 'B' : Nat) : Int)) ∧
    arrGetS 'B' [10, 20, 30] 3 = .error .indexError ∧
    arrSetS 'B' [10, 20, 30] 3 7 = ([10, 20, 30], some .indexError) :=
  ⟨by decide,
    (claim_C9_amended_bounds 'B' [10, 20, 30] 3 7 (by decide)).1,
    (claim_C9_amended_bounds 'B' [10, 20, 30] 3 7 (by decide)).2⟩

/-- C5: code bug.  With reset true and an existing segment, the code
    unlinks the name and then attaches with create=False; on POSIX that
    attach finds no object under the (just unlinked) name and raises
    FileNotFoundError, instead of re-creating the fresh zero-filled
    segment the docstring and spec promise.  Evaluated at the failing
    input: segment n of 33 bytes exists, reset_shm=True. -/
theorem claim_C5_reset_path_raises :
    (smdInit [("n", List.replicate 33 0)] "n" 1 "uint8" true [] true).2.2 =
        .error .fileNotFound ∧
    (smdInit [("n", List.replicate 33 0)] "n" 1 "uint8" true [] true).2.1 =
        [] := by
  decide

/-- Whether a constructor outcome is a success. -/
def exceptIsOk : Except PyErr SMD → Bool
  | .ok _ => true
  | .error _ => false

/-- C4 counterexample: attaching to an existing 100-byte segment with a
    schema computing 33 bytes (one uint8 slot plus the 32-byte guard) does
    not fail at all: no size comparison exists, the attach maps the
    existing bytes, the all-zero guard is claimed, and construction
    succeeds — refuting the claim that every size mismatch fails with
    SegmentSizeMismatch before digest comparison. -/
theorem claim_C4_counterexample :
    envLookup [("n", List.replicate 100 0)] "n" =
        some (List.replicate 100 0) ∧
    calcsize 'B' * 1 + 32 = 33 ∧
    (100 : Nat) ≠ 33 ∧
    exceptIsOk (smdInit [("n", List.replicate 100 0)] "n" 1 "uint8" false []
      true).2.2 = true := by
  decide

/-- C4 amended: the attach path performs no size validation at all: the
    open of an existing segment ignores the requested byte size and
    returns the existing bytes whatever their length, so no size-mismatch
    failure can precede (or follow from) the digest comparison. -/
theorem claim_C4_amended_attach_ignores_size (env : ShmEnv) (name : String)
    (nbytes : Nat) (bytes : List Nat)
    (h : envLookup env name = some bytes) :
    shmOpenPhase env name nbytes false = (env, .ok bytes) := by
  simp [shmOpenPhase, h]

/-- C4 witness: an attach to a 100-byte segment with a 33-byte request. -/
theorem claim_C4_witness :
    envLookup [("n", List.replicate 100 0)] "n" =
        some (List.replicate 100 0) ∧
    shmOpenPhase [("n", List.replicate 100 0)] "n" 33 false =
      ([("n", List.replicate 100 0)], .ok (List.replicate 100 0)) :=
  ⟨by decide,
    claim_C4_amended_attach_ignores_size [("n", List.replicate 100 0)] "n"
      33 (List.replicate 100 0) (by decide)⟩

/-- C2 counterexample: with name a, num 1, dtype float64 and version
    1.5.0, the empty varnames list and the explicit default list [0]
    describe the same logical schema after the documented defaulting, yet
    their digests differ: the digest is computed from the raw varnames
    argument before the defaulting runs. -/
theorem claim_C2_counterexample :
    defaultVarnames 1 [] = [Key.int 0] ∧
    myCfgSha256 "a" 1 "float64" [] ≠
      myCfgSha256 "a" 1 "float64" [Key.int 0] := by
  decide

/-- C2 amended: the digest is a deterministic function of the serialized
    raw configuration: two constructor calls whose raw configurations
    (name, num, dtype, version, and varnames exactly as passed, before any
    defaulting) serialize identically always produce equal digests. -/
theorem claim_C2_amended_digest_determinism (name1 name2 : String)
    (num1 num2 : Nat) (dtype1 dtype2 : String) (v1 v2 : List Key)
    (h : jsonDumpsCfg name1 num1 dtype1 v1 =
      jsonDumpsCfg name2 num2 dtype2 v2) :
    myCfgSha256 name1 num1 dtype1 v1 = myCfgSha256 name2 num2 dtype2 v2 := by
  unfold myCfgSha256
  rw [h]

/-- C2 witness: two identical raw configurations hash identically. -/
theorem claim_C2_witness :
    jsonDumpsCfg "a" 2 "int16" [] = jsonDumpsCfg "a" 2 "int16" [] ∧
    myCfgSha256 "a" 2 "int16" [] = myCfgSha256 "a" 2 "int16" [] :=
  ⟨rfl, claim_C2_amended_digest_determinism "a" "a" 2 2 "int16" "int16"
    [] [] rfl⟩

/-- C6 witness: slot 0 of a one-slot uint8 view round-trips the value 7. -/
theorem claim_C6_witness :
    ([0] : List Nat).length = calcsize 'B' * 1 ∧
    0 < 1 ∧
    representableB 'B' 7 = true ∧
    ((arrSetS 'B' [0] ((0 : Nat) : Int) 7).2 = none ∧
      arrGetS 'B' (arrSetS 'B' [0] ((0 : Nat) : Int) 7).1 ((0 : Nat) : Int) =
        Except.ok 7) :=
  ⟨by decide, by decide, by decide,
    claim_C6_set_get_roundtrip 'B' 1 [0] 0 7 (by decide) (by decide)
      (by decide)⟩
